import Mathlib

/-!
Verification of the TrustWeb3Provider dispatch / pending-call engine
(src/index.js) against its natural-language specification.

The JavaScript source is shallowly embedded: dynamic JS values become the
inductive `JSValue`; the provider instance becomes the record
`ProviderState`; observable side effects (continuation invocations, bridge
deliveries, event emissions, collaborator calls) are returned as an explicit
`Effect` list; a thrown JS exception becomes `Except.error`.
-/

namespace TrustWeb3

/-- A JavaScript runtime value, restricted to the shapes the provider
manipulates.  `vErr m` models an `Error` object whose `message` is `m`. -/
inductive JSValue where
  | vNull
  | vUndefined
  | vBool (b : Bool)
  | vNum (n : Int)
  | vStr (s : String)
  | vArr (elems : List JSValue)
  | vObj (fields : List (String × JSValue))
  | vErr (message : String)

/-- A thrown JavaScript exception (only TypeError arises in this code). -/
inductive JSException where
  | typeError (msg : String)
  deriving Repr, DecidableEq

namespace JSValue

/-- JS truthiness (`!!v`).  (NaN is not modelled; JS numbers are `Int` here.) -/
def truthy : JSValue → Bool
  | .vNull => false
  | .vUndefined => false
  | .vBool b => b
  | .vNum n => n ≠ 0
  | .vStr s => s ≠ ""
  | .vArr _ => true
  | .vObj _ => true
  | .vErr _ => true

/-- JS `typeof v`.  Note `typeof null == "object"`, as in JavaScript. -/
def jsTypeof : JSValue → String
  | .vNull => "object"
  | .vUndefined => "undefined"
  | .vBool _ => "boolean"
  | .vNum _ => "number"
  | .vStr _ => "string"
  | .vArr _ => "object"
  | .vObj _ => "object"
  | .vErr _ => "object"

/-- `Array.isArray(v)` / `v instanceof Array`. -/
def isArray : JSValue → Bool
  | .vArr _ => true
  | _ => false

/-- Integer to string in the given base, lowercase digits, as JS
`Number.prototype.toString(base)` renders integral numbers. -/
def intToBase (base : Nat) (n : Int) : String :=
  if n < 0 then "-" ++ (Nat.toDigits base n.natAbs).asString
  else (Nat.toDigits base n.natAbs).asString

mutual
/-- JS `ToString` coercion, used for property keys, string concatenation and
`new Error(v)` messages. -/
def jsToString : JSValue → String
  | .vNull => "null"
  | .vUndefined => "undefined"
  | .vBool b => if b then "true" else "false"
  | .vNum n => intToBase 10 n
  | .vStr s => s
  | .vArr xs => String.intercalate "," (jsToStringList xs)
  | .vObj _ => "[object Object]"
  | .vErr m => "Error: " ++ m

def jsToStringList : List JSValue → List String
  | [] => []
  | x :: xs => jsToString x :: jsToStringList xs
end

/-- Property access `v.f`.  Throws on `null`/`undefined`; yields `undefined`
for fields the model does not track on primitives and arrays. -/
def getField (v : JSValue) (f : String) : Except JSException JSValue :=
  match v with
  | .vNull => .error (.typeError ("Cannot read properties of null (reading " ++ f ++ ")"))
  | .vUndefined => .error (.typeError ("Cannot read properties of undefined (reading " ++ f ++ ")"))
  | .vObj fields => .ok ((fields.lookup f).getD .vUndefined)
  | _ => .ok .vUndefined

/-- Total variant of `getField` for values that are not `null`/`undefined`. -/
def getFieldD (v : JSValue) (f : String) : JSValue :=
  match v with
  | .vObj fields => (fields.lookup f).getD .vUndefined
  | _ => .vUndefined

/-- JS `a || b`. -/
def jsOr (a b : JSValue) : JSValue := if truthy a then a else b

/-- ASCII lowercasing of a string (models `String.prototype.toLowerCase` on
the ASCII hex addresses this provider handles). -/
def strToLower (s : String) : String := ⟨s.data.map Char.toLower⟩

/-- Method call `v.toLowerCase()`: only strings have it; anything else throws. -/
def jsToLowerCase : JSValue → Except JSException String
  | .vStr s => .ok (strToLower s)
  | .vNull => .error (.typeError "Cannot read properties of null (reading toLowerCase)")
  | .vUndefined => .error (.typeError "Cannot read properties of undefined (reading toLowerCase)")
  | _ => .error (.typeError "toLowerCase is not a function")

/-- Method call `v.toString(base)`: numbers render in the base; other
non-nullish values ignore the argument; `null`/`undefined` throw. -/
def jsNumToString (v : JSValue) (base : Nat) : Except JSException String :=
  match v with
  | .vNull => .error (.typeError "Cannot read properties of null (reading toString)")
  | .vUndefined => .error (.typeError "Cannot read properties of undefined (reading toString)")
  | .vNum n => .ok (intToBase base n)
  | v => .ok (jsToString v)

/-- Array indexing `v[i]` (out of range yields `undefined`). -/
def arrGet (v : JSValue) (i : Nat) : JSValue :=
  match v with
  | .vArr xs => xs.getD i .vUndefined
  | _ => .vUndefined

/-- The underlying string of a string value (callers only use this on values
already checked to satisfy `typeof v === "string"`). -/
def strOf : JSValue → String
  | .vStr s => s
  | _ => ""

end JSValue

open JSValue

/-- A Pending Call Table entry.  The source stores the `resolve`/`reject`
functions of the promise created in `send`; observationally what matters is
WHICH registration's continuations are invoked, so an entry carries the
registration tag (a serial number assigned at registration time).  Both
stored functions are functions, hence truthy. -/
structure PendingEntry where
  tag : Nat
  deriving Repr, DecidableEq

/-- A `new RPCServer(rpcUrl)` instance.  `gen` distinguishes the instance
created at construction from instances created by later `setConfig` calls. -/
structure RPCServerInst where
  gen : Nat
  rpcUrl : JSValue

/-- A `new FilterMgr(rpc)` instance, bound to the RPC server of the same
generation. -/
structure FilterMgrInst where
  gen : Nat
  deriving Repr, DecidableEq

/-- The mutable fields of a `TrustWeb3Provider` instance, plus the counters
backing the two modelled sources of freshness (registration tags and
`Utils.genId`). -/
structure ProviderState where
  isTrust : Bool
  chainId : JSValue
  address : String
  ready : Bool
  rpc : RPCServerInst
  filterMgr : FilterMgrInst
  /-- `this._promises`: property key (`ToString` of the id) to entry. -/
  promises : List (String × PendingEntry)
  /-- Serial number for the next registered promise's continuations. -/
  nextTag : Nat
  /-- Counter backing the modelled `Utils.genId`. -/
  nextId : Nat

/-- An observable side effect of a provider operation, in order of
occurrence. -/
inductive Effect where
  /-- The success continuation of registration `tag` was invoked with `value`. -/
  | resolved (tag : Nat) (value : JSValue)
  /-- The failure continuation of registration `tag` was invoked with `error`. -/
  | rejected (tag : Nat) (error : JSValue)
  /-- `window.webkit.messageHandlers[handler].postMessage(payload)` was sent. -/
  | hostDelivery (handler : String) (payload : JSValue)
  /-- `this.emit(event, args...)` fired. -/
  | emitted (event : String) (args : List JSValue)
  /-- `this._rpc.call(payload)` was issued against RPC server `gen`. -/
  | rpcCall (gen : Nat) (payload : JSValue)
  /-- A filter-manager operation was issued against filter manager `gen`. -/
  | filterOp (gen : Nat) (op : String) (arg : JSValue)

/-- JS object property assignment `table[k] = e`: overwrites in place if the
key is present, otherwise appends. -/
def tableSet : List (String × PendingEntry) → String → PendingEntry →
    List (String × PendingEntry)
  | [], k, e => [(k, e)]
  | (k', e') :: rest, k, e =>
    if k' = k then (k, e) :: rest else (k', e') :: tableSet rest k e

/-- JS property lookup `table[k]` (`none` plays `undefined`). -/
def tableGet : List (String × PendingEntry) → String → Option PendingEntry
  | [], _ => none
  | (k', e') :: rest, k => if k' = k then some e' else tableGet rest k

/-- JS `delete table[k]`. -/
def eraseKey (l : List (String × PendingEntry)) (k : String) :
    List (String × PendingEntry) :=
  l.filter (fun p => p.1 ≠ k)

/-- Modelled from the spec: `Utils.genId` (the module src/utils imported by
src/index.js is not among the repository sources).  The spec requires only
that it "produces a value unique among all currently-outstanding identifiers";
modelled as a counter threaded through `ProviderState.nextId`. -/
def genIdValue (n : Nat) : JSValue := .vNum n

namespace Provider

/-- The condition `typeof result === "object" && result.jsonrpc && result.result`
together with the two assignments to `data.result` in `_resolve`
(src/index.js lines 158-163).  Property access on `null` throws, as in JS. -/
def normalizeResult (v : JSValue) : Except JSException JSValue :=
  if jsTypeof v == "object" then
    match getField v "jsonrpc" with
    | .error e => .error e
    | .ok j =>
      if truthy j then
        match getField v "result" with
        | .error e => .error e
        | .ok r => .ok (if truthy r then r else v)
      else .ok v
  else .ok v

/-- The result-normalization rule of `_resolve` as a total function on
non-null values: unwrap one level exactly when the raw value is an object
whose `jsonrpc` and `result` properties are both truthy. -/
def unwrapResult (v : JSValue) : JSValue :=
  if jsTypeof v == "object" && truthy (getFieldD v "jsonrpc")
      && truthy (getFieldD v "result")
  then getFieldD v "result" else v

/-- `_resolve(id, result)` (src/index.js lines 156-169).  Note the source
destructures `this._promises[id]` BEFORE its `if (resolve)` guard, so a
missing entry makes the destructuring itself throw a TypeError. -/
def _resolve (st : ProviderState) (id result : JSValue) :
    Except JSException (ProviderState × List Effect) :=
  match normalizeResult result with
  | .error e => .error e
  | .ok res =>
    let data : JSValue :=
      .vObj [("jsonrpc", .vStr "2.0"), ("id", id), ("result", res)]
    match tableGet st.promises (jsToString id) with
    | none =>
      -- `let { resolve } = this._promises[id]` with the entry absent
      .error (.typeError "Cannot destructure property resolve of undefined")
    | some entry =>
      -- the stored `resolve` function is truthy, so the guard passes;
      -- `resolve(data); delete this._promises[id]`
      .ok ({ st with promises := eraseKey st.promises (jsToString id) },
           [.resolved entry.tag data])

/-- `_reject(id, error)` (src/index.js lines 171-180). -/
def _reject (st : ProviderState) (id error : JSValue) :
    Except JSException (ProviderState × List Effect) :=
  match tableGet st.promises (jsToString id) with
  | none =>
    -- `let { reject } = this._promises[id]` with the entry absent
    .error (.typeError "Cannot destructure property reject of undefined")
  | some entry =>
    -- `reject(error instanceof Error ? error : new Error(error))`
    let err : JSValue :=
      match error with
      | .vErr m => .vErr m
      | v => .vErr (jsToString v)
    .ok ({ st with promises := eraseKey st.promises (jsToString id) },
         [.rejected entry.tag err])

/-- `postMessage(handler, id, data)` (src/index.js lines 143-154). -/
def postMessage (st : ProviderState) (handler : String) (id data : JSValue) :
    Except JSException (ProviderState × List Effect) :=
  if st.ready || handler == "requestAccounts" then
    .ok (st, [.hostDelivery handler
      (.vObj [("name", .vStr handler), ("object", data), ("id", id)])])
  else
    _reject st id (.vErr "provider is not ready")

/-- `eth_accounts()` (src/index.js lines 210-212). -/
def eth_accounts (st : ProviderState) : JSValue :=
  if st.address ≠ "" then .vArr [.vStr st.address] else .vArr []

/-- `eth_coinbase()` (src/index.js lines 214-216). -/
def eth_coinbase (st : ProviderState) : JSValue := .vStr st.address

/-- `net_version()` (src/index.js lines 218-220):
`return this.chainId.toString(10) || null`. -/
def net_version (st : ProviderState) : Except JSException JSValue :=
  match jsNumToString st.chainId 10 with
  | .error e => .error e
  | .ok s => .ok (jsOr (.vStr s) .vNull)

/-- `eth_chainId()` (src/index.js lines 222-224):
`return "0x" + this.chainId.toString(16)`. -/
def eth_chainId (st : ProviderState) : Except JSException JSValue :=
  match jsNumToString st.chainId 16 with
  | .error e => .error e
  | .ok s => .ok (.vStr ("0x" ++ s))

/-- `constructor(config)` (src/index.js lines 10-21).  Console logging is not
modelled; `_connect()` emits the connect event. -/
def construct (config : JSValue) : Except JSException (ProviderState × List Effect) :=
  match getField config "chainId" with
  | .error e => .error e
  | .ok chainId =>
  match getField config "address" with
  | .error e => .error e
  | .ok addrV =>
  -- `this.address = (config.address || "").toLowerCase()`
  match jsToLowerCase (jsOr addrV (.vStr "")) with
  | .error e => .error e
  | .ok addr =>
  match getField config "rpcUrl" with
  | .error e => .error e
  | .ok rpcUrl =>
    .ok ({ isTrust := true
           chainId := chainId
           address := addr
           -- `this.ready = !!config.address`
           ready := truthy addrV
           rpc := ⟨0, rpcUrl⟩
           filterMgr := ⟨0⟩
           promises := []
           nextTag := 0
           nextId := 1 },
         [.emitted "connect" []])

/-- `setAddress(address)` (src/index.js lines 23-28). -/
def setAddress (st : ProviderState) (address : JSValue) :
    Except JSException (ProviderState × List Effect) :=
  match jsToLowerCase (jsOr address (.vStr "")) with
  | .error e => .error e
  | .ok addr =>
    let st' := { st with address := addr, ready := truthy address }
    .ok (st', [.emitted "accountsChanged" [.vArr [.vStr addr]]])

/-- `setConfig(config)` (src/index.js lines 30-36).  The new `RPCServer` and
`FilterMgr` instances get a fresh generation number. -/
def setConfig (st : ProviderState) (config : JSValue) :
    Except JSException (ProviderState × List Effect) :=
  match getField config "address" with
  | .error e => .error e
  | .ok addrV =>
  match setAddress st addrV with
  | .error e => .error e
  | .ok (st1, effs1) =>
  match getField config "chainId" with
  | .error e => .error e
  | .ok chainId =>
  match getField config "rpcUrl" with
  | .error e => .error e
  | .ok rpcUrl =>
    let newGen := st1.rpc.gen + 1
    let st2 := { st1 with chainId := chainId
                          rpc := ⟨newGen, rpcUrl⟩
                          filterMgr := ⟨newGen⟩ }
    .ok (st2, effs1 ++ [.emitted "networkChanged" [chainId]])

/-- The result of `send`: either the synchronously returned `Error` value
from input validation, or the promise created for registration `tag`. -/
inductive SendResult where
  | syncError (e : JSValue)
  | promise (tag : Nat)

/-- `send(method, params, id)` (src/index.js lines 38-115).  The JS `switch`
on `payload.method` is modelled as the equivalent equality chain.  Locally
answered methods run `_resolve` immediately; bridge methods run
`postMessage`; filter methods issue the collaborator operation (whose
completion arrives out of band via `_resolve`/`_reject`); anything else
issues `this._rpc.call(payload)`. -/
def send (st : ProviderState) (method params id : JSValue) :
    Except JSException (SendResult × ProviderState × List Effect) :=
  -- `if (!method || typeof method !== "string")`
  if ¬ truthy method ∨ jsTypeof method ≠ "string" then
    .ok (.syncError (.vErr "Method is not a valid string."), st, [])
  -- `if (!(params instanceof Array))`
  else if ¬ isArray params then
    .ok (.syncError (.vErr "Params is not a valid array."), st, [])
  else
    -- `if (!id) { id = Utils.genId(); }`
    let idv := if truthy id then id else genIdValue st.nextId
    let st := if truthy id then st else { st with nextId := st.nextId + 1 }
    let payload : JSValue := .vObj
      [("jsonrpc", .vStr "2.0"), ("id", idv), ("method", method), ("params", params)]
    -- `this._promises[payload.id] = { resolve, reject }` inside the Promise
    let tag := st.nextTag
    let key := jsToString idv
    let st := { st with nextTag := st.nextTag + 1
                        promises := tableSet st.promises key ⟨tag⟩ }
    let mstr := strOf method
    let dispatched : Except JSException (ProviderState × List Effect) :=
      if mstr = "eth_accounts" then _resolve st idv (eth_accounts st)
      else if mstr = "eth_coinbase" then _resolve st idv (eth_coinbase st)
      else if mstr = "net_version" then
        match net_version st with
        | .error e => .error e
        | .ok v => _resolve st idv v
      else if mstr = "eth_chainId" then
        match eth_chainId st with
        | .error e => .error e
        | .ok v => _resolve st idv v
      else if mstr = "eth_sign" then
        postMessage st "signMessage" idv (.vObj [("data", arrGet params 1)])
      else if mstr = "personal_sign" then
        postMessage st "signPersonalMessage" idv (.vObj [("data", arrGet params 0)])
      else if mstr = "personal_ecRecover" then
        postMessage st "ecRecover" idv
          (.vObj [("signature", arrGet params 1), ("message", arrGet params 0)])
      else if mstr = "eth_signTypedData" ∨ mstr = "eth_signTypedData_v3" then
        postMessage st "signTypedMessage" idv (.vObj [("data", arrGet params 1)])
      else if mstr = "eth_sendTransaction" then
        postMessage st "signTransaction" idv (arrGet params 0)
      else if mstr = "eth_requestAccounts" then
        postMessage st "requestAccounts" idv (.vObj [])
      else if mstr = "eth_newFilter" then
        .ok (st, [.filterOp st.filterMgr.gen "newFilter" payload])
      else if mstr = "eth_newBlockFilter" then
        .ok (st, [.filterOp st.filterMgr.gen "newBlockFilter" .vUndefined])
      else if mstr = "eth_newPendingTransactionFilter" then
        .ok (st, [.filterOp st.filterMgr.gen "newPendingTransactionFilter" .vUndefined])
      else if mstr = "eth_uninstallFilter" then
        .ok (st, [.filterOp st.filterMgr.gen "uninstallFilter" (arrGet params 0)])
      else if mstr = "eth_getFilterChanges" then
        .ok (st, [.filterOp st.filterMgr.gen "getFilterChanges" (arrGet params 0)])
      else if mstr = "eth_getFilterLogs" then
        .ok (st, [.filterOp st.filterMgr.gen "getFilterLogs" (arrGet params 0)])
      else
        .ok (st, [.rpcCall st.rpc.gen payload])
    match dispatched with
    | .error e => .error e
    | .ok (st', effs) => .ok (.promise tag, st', effs)

/-- Outcome of a `sendAsync` call that did not throw: the callback has been
wired (via `.then`/`.catch`) to the promise of registration `tag`. -/
inductive AsyncOutcome where
  | attached (tag : Nat)

/-- `sendAsync(payload, callback)` (src/index.js lines 128-141).  In the
array branch the source computes `this.send(payload.method, payload.params,
payload.id)` ONCE — with the array's (undefined) properties — and passes its
return value, which is not a function, to `Array.prototype.map`, which
throws a TypeError.  In the non-array branch, if `send` returned an `Error`
value (validation failure) rather than a promise, calling `.then` on it
throws a TypeError. -/
def sendAsync (st : ProviderState) (payload : JSValue) :
    Except JSException (AsyncOutcome × ProviderState × List Effect) :=
  if isArray payload then
    match getField payload "method" with
    | .error e => .error e
    | .ok m =>
    match getField payload "params" with
    | .error e => .error e
    | .ok p =>
    match getField payload "id" with
    | .error e => .error e
    | .ok i =>
    match send st m p i with
    | .error e => .error e
    | .ok _ => .error (.typeError "payload.map argument is not a function")
  else
    match getField payload "method" with
    | .error e => .error e
    | .ok m =>
    match getField payload "params" with
    | .error e => .error e
    | .ok p =>
    match getField payload "id" with
    | .error e => .error e
    | .ok i =>
    match send st m p i with
    | .error e => .error e
    | .ok (.syncError _, _, _) =>
      .error (.typeError "this.send(...).then is not a function")
    | .ok (.promise tag, st', effs) => .ok (.attached tag, st', effs)

end Provider

open JSValue Provider

/-- The address argument shapes claim C2 ranges over: a string, or absent
(`undefined`). -/
def strOrAbsent (a : JSValue) : Prop := (∃ s, a = .vStr s) ∨ a = .vUndefined

/-- A freshly constructed provider with no address, chain id 1, and an empty
Pending Call Table (`construct` with an address-less config yields this). -/
def baseState : ProviderState :=
  { isTrust := true, chainId := .vNum 1, address := "", ready := false,
    rpc := ⟨0, .vStr "https://node.example"⟩, filterMgr := ⟨0⟩,
    promises := [], nextTag := 0, nextId := 1 }

/-- `baseState` with one live pending entry, registered under id `1` with
continuation tag `0`. -/
def onePending : ProviderState := { baseState with promises := [("1", ⟨0⟩)] }

/-- `onePending` after `setConfig` with chain id 56, address "0xCD" and a new
RPC endpoint: address/ready/chainId and the collaborator instances change,
the pending table does not. -/
def reconfigured : ProviderState :=
  { onePending with address := "0xcd", ready := true, chainId := .vNum 56, rpc := ⟨1, .vStr "u2"⟩, filterMgr := ⟨1⟩ }

/-- The method names the `send` switch handles with a dedicated case; any
other method falls through to the remote-RPC passthrough default. -/
def dispatchCases : List String :=
  ["eth_accounts", "eth_coinbase", "net_version", "eth_chainId", "eth_sign",
   "personal_sign", "personal_ecRecover", "eth_signTypedData",
   "eth_signTypedData_v3", "eth_sendTransaction", "eth_requestAccounts",
   "eth_newFilter", "eth_newBlockFilter", "eth_newPendingTransactionFilter",
   "eth_uninstallFilter", "eth_getFilterChanges", "eth_getFilterLogs"]

/-! ### Auxiliary lemmas about the table and string helpers -/

theorem tableGet_tableSet_self (l : List (String × PendingEntry)) (k : String)
    (e : PendingEntry) : tableGet (tableSet l k e) k = some e := by
  induction l with
  | nil => simp [tableSet, tableGet]
  | cons hd tl ih =>
    obtain ⟨k', e'⟩ := hd
    by_cases h : k' = k <;> simp [tableSet, tableGet, h, ih]

theorem eraseKey_tableSet (l : List (String × PendingEntry)) (k : String)
    (e : PendingEntry) : eraseKey (tableSet l k e) k = eraseKey l k := by
  induction l with
  | nil => simp [tableSet, eraseKey]
  | cons hd tl ih =>
    obtain ⟨k', e'⟩ := hd
    by_cases h : k' = k
    · simp [tableSet, eraseKey, h]
    · simp [tableSet, eraseKey, h]
      simpa [eraseKey] using ih

theorem toDigitsCore_length_le (b : Nat) :
    ∀ (fuel n : Nat) (ds : List Char),
      ds.length ≤ (Nat.toDigitsCore b fuel n ds).length := by
  intro fuel
  induction fuel with
  | zero => intro n ds; simp [Nat.toDigitsCore]
  | succ f ih =>
    intro n ds
    unfold Nat.toDigitsCore
    by_cases h : n / b = 0
    · simp [h]
    · simp only [h, if_false]
      exact le_trans (Nat.le_succ ds.length)
        (by simpa using ih (n / b) ((n % b).digitChar :: ds))

theorem toDigits_ne_nil (b n : Nat) : Nat.toDigits b n ≠ [] := by
  unfold Nat.toDigits Nat.toDigitsCore
  by_cases h : n / b = 0
  · simp [h]
  · simp only [h, if_false]
    intro hnil
    have hle := toDigitsCore_length_le b n (n / b) [(n % b).digitChar]
    rw [hnil] at hle
    simp at hle

theorem intToBase_ne_empty (b : Nat) (n : Int) : intToBase b n ≠ "" := by
  unfold intToBase
  split <;> intro h <;>
    simp [String.ext_iff, List.asString, String.append] at h
  exact toDigits_ne_nil b n.natAbs h

theorem strToLower_eq_empty_iff (s : String) : strToLower s = "" ↔ s = "" := by
  simp [strToLower, String.ext_iff]

theorem jsOr_vStr_empty (s : String) : jsOr (.vStr s) (.vStr "") = .vStr s := by
  by_cases h : s = "" <;> simp [jsOr, truthy, h]

theorem normalizeResult_vStr (s : String) :
    normalizeResult (.vStr s) = .ok (.vStr s) := rfl

theorem normalizeResult_eth_accounts (st : ProviderState) :
    normalizeResult (eth_accounts st) = .ok (eth_accounts st) := by
  unfold eth_accounts
  split <;> rfl

theorem normalizeResult_eq_unwrap (v : JSValue) (hv : v ≠ .vNull) :
    normalizeResult v = .ok (unwrapResult v) := by
  cases v with
  | vNull => exact absurd rfl hv
  | vUndefined => rfl
  | vBool b => rfl
  | vNum n => rfl
  | vStr s => rfl
  | vArr xs => rfl
  | vErr m => rfl
  | vObj fs =>
    simp only [normalizeResult, unwrapResult, jsTypeof, getField, getFieldD]
    by_cases hj : truthy ((fs.lookup "jsonrpc").getD .vUndefined) <;>
      by_cases hr : truthy ((fs.lookup "result").getD .vUndefined) <;>
      simp [hj, hr]

theorem lower_ready (a : JSValue) (h : strOrAbsent a) :
    ∃ s', jsToLowerCase (jsOr a (.vStr "")) = .ok s' ∧
      truthy a = decide (s' ≠ "") := by
  rcases h with ⟨s, rfl⟩ | rfl
  · refine ⟨strToLower s, ?_, ?_⟩
    · rw [jsOr_vStr_empty]; rfl
    · show decide (s ≠ "") = decide (strToLower s ≠ "")
      exact decide_eq_decide.mpr (not_congr (strToLower_eq_empty_iff s).symm)
  · exact ⟨"", rfl, rfl⟩

theorem setAddress_ok (st : ProviderState) (a : JSValue) (st' : ProviderState)
    (effs : List Effect) (h : setAddress st a = .ok (st', effs)) :
    ∃ s, jsToLowerCase (jsOr a (.vStr "")) = .ok s ∧
      st' = { st with address := s, ready := truthy a } := by
  unfold setAddress at h
  cases hlo : jsToLowerCase (jsOr a (.vStr "")) with
  | error e0 => rw [hlo] at h; cases h
  | ok s => rw [hlo] at h; cases h; exact ⟨s, rfl, rfl⟩

theorem setConfig_ok (st : ProviderState) (cfg : JSValue) (st' : ProviderState)
    (effs : List Effect) (h : setConfig st cfg = .ok (st', effs)) :
    ∃ s a cid url,
      getField cfg "address" = .ok a ∧
      jsToLowerCase (jsOr a (.vStr "")) = .ok s ∧
      st' = { st with address := s, ready := truthy a, chainId := cid,
                      rpc := ⟨st.rpc.gen + 1, url⟩,
                      filterMgr := ⟨st.rpc.gen + 1⟩ } := by
  unfold setConfig at h
  cases ha : getField cfg "address" with
  | error e0 => simp only [ha] at h; exact Except.noConfusion h
  | ok a =>
    simp only [ha] at h
    cases hsa : setAddress st a with
    | error e0 => simp only [hsa] at h; exact Except.noConfusion h
    | ok p =>
      obtain ⟨st1, effs1⟩ := p
      simp only [hsa] at h
      obtain ⟨s, hlo, rfl⟩ := setAddress_ok st a st1 effs1 hsa
      cases hcid : getField cfg "chainId" with
      | error e0 => simp only [hcid] at h; exact Except.noConfusion h
      | ok cid =>
        simp only [hcid] at h
        cases hurl : getField cfg "rpcUrl" with
        | error e0 => simp only [hurl] at h; exact Except.noConfusion h
        | ok url => simp only [hurl] at h; cases h; exact ⟨s, a, cid, url, rfl, hlo, rfl⟩

/-- General behavior of `_resolve` on a live entry (shared by several claim
theorems): the success continuation of the registered entry is invoked with
the normalized envelope, and the entry is removed. -/
theorem resolve_ok (st : ProviderState) (id v : JSValue) (e : PendingEntry)
    (hv : v ≠ .vNull)
    (hl : tableGet st.promises (jsToString id) = some e) :
    _resolve st id v =
      .ok ({ st with promises := eraseKey st.promises (jsToString id) },
           [.resolved e.tag (.vObj [("jsonrpc", .vStr "2.0"), ("id", id),
                                    ("result", unwrapResult v)])]) := by
  simp [_resolve, normalizeResult_eq_unwrap v hv, hl]

/-! ### Claim C1 -/

/-- Claim C1: the claim says `resolve`/`reject` for an id with no live
Pending Call Table entry is a silent no-op.  The code instead THROWS: it
destructures `this._promises[id]` (which is `undefined`) before the
`if (resolve)` guard.  This theorem evaluates the code at such inputs: both
`_resolve` and `_reject` throw a TypeError on an id with no entry, and after
a first `_resolve` has consumed the entry for id 1, a second `_resolve` of
the same id throws as well. -/
theorem resolve_missing_entry_throws :
    _resolve baseState (.vNum 7) (.vStr "late") =
      .error (.typeError "Cannot destructure property resolve of undefined") ∧
    _reject baseState (.vNum 7) (.vStr "late") =
      .error (.typeError "Cannot destructure property reject of undefined") ∧
    _resolve onePending (.vNum 1) (.vStr "first") =
      .ok ({ onePending with promises := [] },
           [.resolved 0 (.vObj [("jsonrpc", .vStr "2.0"), ("id", .vNum 1),
                                ("result", .vStr "first")])]) ∧
    _resolve { onePending with promises := [] } (.vNum 1) (.vStr "second") =
      .error (.typeError "Cannot destructure property resolve of undefined") :=
  ⟨rfl, rfl, rfl, rfl⟩

/-! ### Claim C2 -/

/-- Claim C2: after the constructor, `setAddress`, or `setConfig` completes
with an address argument that is a string or absent, the provider satisfies
`ready == (address != "")`, where `address` is the stored lowercase-normalized
account string. -/
theorem ready_iff_address_nonempty (cfg a : JSValue) (stp stc st1 st2 : ProviderState)
    (effc eff1 eff2 : List Effect) :
    (construct cfg = .ok (stc, effc) → getField cfg "address" = .ok a →
      strOrAbsent a → stc.ready = decide (stc.address ≠ "")) ∧
    (setAddress stp a = .ok (st1, eff1) → strOrAbsent a →
      st1.ready = decide (st1.address ≠ "")) ∧
    (setConfig stp cfg = .ok (st2, eff2) → getField cfg "address" = .ok a →
      strOrAbsent a → st2.ready = decide (st2.address ≠ "")) := by
  refine ⟨?_, ?_, ?_⟩
  · intro hc ha hs
    obtain ⟨s', hlo, hr⟩ := lower_ready a hs
    unfold construct at hc
    cases hcid : getField cfg "chainId" with
    | error e0 => simp only [hcid] at hc; exact Except.noConfusion hc
    | ok cid =>
      simp only [hcid, ha, hlo] at hc
      cases hurl : getField cfg "rpcUrl" with
      | error e0 => simp only [hurl] at hc; exact Except.noConfusion hc
      | ok url => simp only [hurl] at hc; cases hc; exact hr
  · intro hsa hs
    obtain ⟨s', hlo, hr⟩ := lower_ready a hs
    unfold setAddress at hsa
    simp only [hlo] at hsa
    cases hsa
    exact hr
  · intro hsc ha hs
    obtain ⟨s, a', cid, url, ha', hlo, hst⟩ := setConfig_ok stp cfg st2 eff2 hsc
    rw [ha] at ha'
    cases ha'
    obtain ⟨s', hlo', hr⟩ := lower_ready a hs
    rw [hlo] at hlo'
    cases hlo'
    rw [hst]
    exact hr

/-- Witness for `ready_iff_address_nonempty`: a concrete config with the
mixed-case address "0xAB", run through all three operations. -/
theorem ready_iff_address_nonempty_witness :
    (construct (.vObj [("chainId", .vNum 1), ("address", .vStr "0xAB"),
                       ("rpcUrl", .vStr "u")]) =
       .ok ({ isTrust := true, chainId := .vNum 1, address := "0xab",
              ready := true, rpc := ⟨0, .vStr "u"⟩, filterMgr := ⟨0⟩,
              promises := [], nextTag := 0, nextId := 1 },
            [.emitted "connect" []])) ∧
    strOrAbsent (.vStr "0xAB") ∧
    (true = decide (("0xab" : String) ≠ "")) := by
  refine ⟨rfl, Or.inl ⟨"0xAB", rfl⟩, ?_⟩
  have h := (ready_iff_address_nonempty
    (.vObj [("chainId", .vNum 1), ("address", .vStr "0xAB"), ("rpcUrl", .vStr "u")])
    (.vStr "0xAB") baseState
    { isTrust := true, chainId := .vNum 1, address := "0xab", ready := true,
      rpc := ⟨0, .vStr "u"⟩, filterMgr := ⟨0⟩, promises := [], nextTag := 0, nextId := 1 }
    baseState baseState [.emitted "connect" []] [] []).1
      rfl rfl (Or.inl ⟨"0xAB", rfl⟩)
  exact h

/-! ### Claim C3 -/

/-- Claim C3: `setConfig` leaves the Pending Call Table unchanged (it
replaces only `chainId`, `address`/`ready`, the RPC server and the filter
manager), so resolving an identifier registered before the reconfiguration
invokes the continuation registered before it. -/
theorem setConfig_preserves_pending (st : ProviderState) (cfg : JSValue)
    (st' : ProviderState) (effs : List Effect) (id v : JSValue) (e : PendingEntry)
    (hsc : setConfig st cfg = .ok (st', effs))
    (hl : tableGet st.promises (jsToString id) = some e)
    (hv : jsTypeof v ≠ "object") :
    st'.promises = st.promises ∧
    _resolve st' id v =
      .ok ({ st' with promises := eraseKey st'.promises (jsToString id) },
           [.resolved e.tag (.vObj [("jsonrpc", .vStr "2.0"), ("id", id),
                                    ("result", v)])]) := by
  obtain ⟨s, a, cid, url, ha, hlo, hst⟩ := setConfig_ok st cfg st' effs hsc
  have hpp : st'.promises = st.promises := by rw [hst]
  have hvn : v ≠ .vNull := by
    intro hnull; rw [hnull] at hv; exact hv rfl
  have hu : unwrapResult v = v := by
    unfold unwrapResult
    have : (jsTypeof v == "object") = false := by
      cases hx : jsTypeof v == "object"
      · rfl
      · exact absurd (by simpa using hx) hv
    simp [this]
  have := resolve_ok st' id v e hvn (by rw [hpp]; exact hl)
  rw [hu] at this
  exact ⟨hpp, this⟩

/-- Witness for `setConfig_preserves_pending`: reconfigure a provider that
has a pending entry under id 1, then resolve that id; the original tag-0
continuation fires. -/
theorem setConfig_preserves_pending_witness :
    (setConfig onePending
        (.vObj [("chainId", .vNum 56), ("address", .vStr "0xCD"),
                ("rpcUrl", .vStr "u2")]) =
      .ok (reconfigured,
           [.emitted "accountsChanged" [.vArr [.vStr "0xcd"]],
            .emitted "networkChanged" [.vNum 56]])) ∧
    tableGet onePending.promises (jsToString (.vNum 1)) = some ⟨0⟩ ∧
    jsTypeof (.vStr "done") ≠ "object" ∧
    reconfigured.promises = onePending.promises ∧
    _resolve reconfigured (.vNum 1) (.vStr "done") =
      .ok ({ reconfigured with
             promises := eraseKey reconfigured.promises (jsToString (.vNum 1)) },
           [.resolved 0 (.vObj [("jsonrpc", .vStr "2.0"), ("id", .vNum 1),
                                ("result", .vStr "done")])]) := by
  have h := setConfig_preserves_pending onePending
    (.vObj [("chainId", .vNum 56), ("address", .vStr "0xCD"), ("rpcUrl", .vStr "u2")])
    reconfigured
    [.emitted "accountsChanged" [.vArr [.vStr "0xcd"]],
     .emitted "networkChanged" [.vNum 56]]
    (.vNum 1) (.vStr "done") ⟨0⟩ rfl rfl (by simp [jsTypeof])
  exact ⟨rfl, rfl, by simp [jsTypeof], h.1, h.2⟩

/-! ### Claim C4 -/

/-- Claim C4: a bridge-routed call with `ready = false` and a handler other
than `requestAccounts` immediately rejects the pending identifier with a
"provider is not ready" error and delivers nothing to the host; with
`ready = true`, or with the `requestAccounts` handler regardless of
readiness, the payload `{name, object, id}` is delivered to the host and no
rejection occurs. -/
theorem postMessage_gate (st : ProviderState) (handler : String) (id data : JSValue)
    (e : PendingEntry) :
    (st.ready = false → handler ≠ "requestAccounts" →
      tableGet st.promises (jsToString id) = some e →
      postMessage st handler id data =
        .ok ({ st with promises := eraseKey st.promises (jsToString id) },
             [.rejected e.tag (.vErr "provider is not ready")])) ∧
    (st.ready = true ∨ handler = "requestAccounts" →
      postMessage st handler id data =
        .ok (st, [.hostDelivery handler
          (.vObj [("name", .vStr handler), ("object", data), ("id", id)])])) := by
  constructor
  · intro hr hh hl
    simp [postMessage, hr, hh, _reject, hl]
  · rintro (hr | hh)
    · simp [postMessage, hr]
    · simp [postMessage, hh]

/-- Witness for `postMessage_gate`: on `onePending` (not ready, entry live
under id 1) a `signMessage` bridge call rejects with the not-ready error,
while a `requestAccounts` bridge call is delivered to the host. -/
theorem postMessage_gate_witness :
    (onePending.ready = false ∧ ("signMessage" : String) ≠ "requestAccounts" ∧
      tableGet onePending.promises (jsToString (.vNum 1)) = some ⟨0⟩) ∧
    postMessage onePending "signMessage" (.vNum 1) (.vObj [("data", .vStr "m")]) =
      .ok ({ onePending with
             promises := eraseKey onePending.promises (jsToString (.vNum 1)) },
           [.rejected 0 (.vErr "provider is not ready")]) ∧
    postMessage onePending "requestAccounts" (.vNum 1) (.vObj []) =
      .ok (onePending,
           [.hostDelivery "requestAccounts"
             (.vObj [("name", .vStr "requestAccounts"), ("object", .vObj []),
                     ("id", .vNum 1)])]) :=
  ⟨⟨rfl, by decide, rfl⟩,
   (postMessage_gate onePending "signMessage" (.vNum 1)
       (.vObj [("data", .vStr "m")]) ⟨0⟩).1 rfl (by decide) rfl,
   (postMessage_gate onePending "requestAccounts" (.vNum 1) (.vObj []) ⟨0⟩).2
     (Or.inr rfl)⟩

/-! ### Claim C5 -/

/-- Claim C5: `send` with a method that is not a non-empty string, or params
that are not an array, returns a local `Error` value synchronously (not a
rejected promise), leaves the provider state — in particular the Pending
Call Table — unchanged, and produces no effect. -/
theorem send_validation (st : ProviderState) (method params id : JSValue)
    (h : truthy method = false ∨ jsTypeof method ≠ "string" ∨
         isArray params = false) :
    send st method params id =
        .ok (.syncError (.vErr "Method is not a valid string."), st, []) ∨
    send st method params id =
        .ok (.syncError (.vErr "Params is not a valid array."), st, []) := by
  by_cases hm : ¬ truthy method ∨ jsTypeof method ≠ "string"
  · left
    rw [send, if_pos hm]
  · right
    push_neg at hm
    obtain ⟨hm1, hm2⟩ := hm
    have hp : isArray params = false := by
      rcases h with h | h | h
      · rw [h] at hm1; exact Bool.noConfusion hm1
      · exact absurd hm2 h
      · exact h
    rw [send, if_neg (by push_neg; exact ⟨hm1, hm2⟩),
        if_pos (by simp [hp])]

/-- Witness for `send_validation`: a numeric method and a non-array params
value each yield the corresponding synchronous local error on `baseState`. -/
theorem send_validation_witness :
    (jsTypeof (.vNum 123) ≠ "string" ∧ isArray (.vStr "not-an-array") = false) ∧
    (send baseState (.vNum 123) (.vArr []) .vUndefined =
        .ok (.syncError (.vErr "Method is not a valid string."), baseState, []) ∨
     send baseState (.vNum 123) (.vArr []) .vUndefined =
        .ok (.syncError (.vErr "Params is not a valid array."), baseState, [])) ∧
    (send baseState (.vStr "eth_foo") (.vStr "not-an-array") .vUndefined =
        .ok (.syncError (.vErr "Method is not a valid string."), baseState, []) ∨
     send baseState (.vStr "eth_foo") (.vStr "not-an-array") .vUndefined =
        .ok (.syncError (.vErr "Params is not a valid array."), baseState, [])) :=
  ⟨⟨by decide, rfl⟩,
   send_validation baseState (.vNum 123) (.vArr []) .vUndefined
     (Or.inr (Or.inl (by decide))),
   send_validation baseState (.vStr "eth_foo") (.vStr "not-an-array") .vUndefined
     (Or.inr (Or.inr rfl))⟩

/-! ### Claim C6 -/

/-- Claim C6 counterexample: the claim says the raw value is unwrapped
whenever it "already carries a nested `{result: ...}` shape".  The code's
condition also requires a truthy `jsonrpc` property: for the raw value
`{result: 42}` (no `jsonrpc` field) the continuation receives the WHOLE
object as `result`, not the nested `42` the claim predicts. -/
theorem resolve_unwrap_needs_jsonrpc_cex :
    _resolve onePending (.vNum 1) (.vObj [("result", .vNum 42)]) =
      .ok ({ onePending with promises := [] },
           [.resolved 0 (.vObj [("jsonrpc", .vStr "2.0"), ("id", .vNum 1),
                                ("result", .vObj [("result", .vNum 42)])])]) ∧
    JSValue.vObj [("result", JSValue.vNum 42)] ≠ JSValue.vNum 42 :=
  ⟨rfl, fun h => JSValue.noConfusion h⟩

/-- Claim C6 as amended: for a live entry and any non-null raw value `v`,
`_resolve` invokes the success continuation of that entry with
`{jsonrpc: "2.0", id, result}`, where `result` is `v.result` exactly when
`v` is an object whose `jsonrpc` AND `result` properties are both truthy,
and `v` itself otherwise (`unwrapResult`). -/
theorem resolve_envelope (st : ProviderState) (id v : JSValue) (e : PendingEntry)
    (hv : v ≠ .vNull)
    (hl : tableGet st.promises (jsToString id) = some e) :
    _resolve st id v =
      .ok ({ st with promises := eraseKey st.promises (jsToString id) },
           [.resolved e.tag (.vObj [("jsonrpc", .vStr "2.0"), ("id", id),
                                    ("result", unwrapResult v)])]) :=
  resolve_ok st id v e hv hl

/-- Witness for `resolve_envelope` at a concrete input: id 1 with a live
entry in `onePending` and the already-wrapped raw value
`{jsonrpc: "2.0", result: 42}`, which is unwrapped to `42`. -/
theorem resolve_envelope_witness :
    (JSValue.vObj [("jsonrpc", .vStr "2.0"), ("result", .vNum 42)] ≠ JSValue.vNull) ∧
    _resolve onePending (.vNum 1)
        (.vObj [("jsonrpc", .vStr "2.0"), ("result", .vNum 42)]) =
      .ok ({ onePending with promises := eraseKey onePending.promises "1" },
           [.resolved 0 (.vObj [("jsonrpc", .vStr "2.0"), ("id", .vNum 1),
                                ("result", unwrapResult (.vObj [("jsonrpc", .vStr "2.0"),
                                                                ("result", .vNum 42)]))])]) :=
  ⟨fun h => JSValue.noConfusion h,
   resolve_envelope onePending (.vNum 1)
     (.vObj [("jsonrpc", .vStr "2.0"), ("result", .vNum 42)]) ⟨0⟩
     (fun h => JSValue.noConfusion h) rfl⟩

/-! ### Claim C7 -/

/-- Claim C7 counterexample: the claim says a second registration under an
id already present must fail rather than silently overwrite.  The code's
`this._promises[payload.id] = { resolve, reject }` silently overwrites: a
second `send` with the same external id 7 succeeds (returns the new promise,
tag 1) and afterwards the table maps "7" to the SECOND registration's
continuations; the first registration (tag 0) is gone. -/
theorem send_same_id_overwrites_cex :
    send baseState (.vStr "eth_foo") (.vArr []) (.vNum 7) =
      .ok (.promise 0,
           { baseState with nextTag := 1, promises := [("7", ⟨0⟩)] },
           [.rpcCall 0 (.vObj [("jsonrpc", .vStr "2.0"), ("id", .vNum 7),
                               ("method", .vStr "eth_foo"), ("params", .vArr [])])]) ∧
    send { baseState with nextTag := 1, promises := [("7", ⟨0⟩)] }
        (.vStr "eth_foo") (.vArr []) (.vNum 7) =
      .ok (.promise 1,
           { baseState with nextTag := 2, promises := [("7", ⟨1⟩)] },
           [.rpcCall 0 (.vObj [("jsonrpc", .vStr "2.0"), ("id", .vNum 7),
                               ("method", .vStr "eth_foo"), ("params", .vArr [])])]) ∧
    tableGet [("7", (⟨1⟩ : PendingEntry))] "7" = some ⟨1⟩ ∧
    (⟨1⟩ : PendingEntry) ≠ ⟨0⟩ :=
  ⟨rfl, rfl, rfl, by decide⟩

/-! ### Claim C8 -/

/-- Claim C8 counterexample: the claim says the network-version query
resolves with `null` whenever `chainId` is falsy, e.g. 0.  With
`chainId = 0` the code computes `(0).toString(10) = "0"`, which is truthy,
so `"0" || null` is `"0"`: the call resolves with the string "0", not null. -/
theorem net_version_zero_cex :
    send { baseState with chainId := .vNum 0 } (.vStr "net_version")
        (.vArr []) (.vNum 5) =
      .ok (.promise 0,
           { baseState with chainId := .vNum 0, nextTag := 1, promises := [] },
           [.resolved 0 (.vObj [("jsonrpc", .vStr "2.0"), ("id", .vNum 5),
                                ("result", .vStr "0")])]) ∧
    JSValue.vStr "0" ≠ JSValue.vNull :=
  ⟨rfl, fun h => JSValue.noConfusion h⟩

/-- Claim C7 as amended: the code never fails a re-registration; `send` with
an id whose key is already present in the Pending Call Table succeeds and
SILENTLY OVERWRITES the entry: afterwards the table maps that key to the new
registration's continuations (tag `st.nextTag`), dropping the first
registration's.  Stated for any method outside the dedicated switch cases
(remote-passthrough dispatch), so the overwritten table survives the call. -/
theorem send_reregister_overwrites (st : ProviderState) (s : String)
    (params id : JSValue) (e : PendingEntry)
    (hcase : s ∉ dispatchCases) (hs : s ≠ "")
    (hp : isArray params = true) (hid : truthy id = true)
    (_hl : tableGet st.promises (jsToString id) = some e) :
    send st (.vStr s) params id =
      .ok (.promise st.nextTag,
           { st with nextTag := st.nextTag + 1
                     promises := tableSet st.promises (jsToString id) ⟨st.nextTag⟩ },
           [.rpcCall st.rpc.gen
              (.vObj [("jsonrpc", .vStr "2.0"), ("id", id),
                      ("method", .vStr s), ("params", params)])]) ∧
    tableGet (tableSet st.promises (jsToString id) ⟨st.nextTag⟩) (jsToString id) =
      some ⟨st.nextTag⟩ := by
  simp only [dispatchCases, List.mem_cons, List.mem_singleton, not_or] at hcase
  obtain ⟨h1, h2, h3, h4, h5, h6, h7, h8, h9, h10, h11, h12, h13, h14, h15,
          h16, hrest⟩ := hcase
  have hv1 : truthy (.vStr s) = true := by simp [truthy, hs]
  have hv2 : jsTypeof (.vStr s) = "string" := rfl
  refine ⟨?_, tableGet_tableSet_self _ _ _⟩
  simp [send, strOf, hv1, hv2, hp, hid,
        h1, h2, h3, h4, h5, h6, h7, h8, h9, h10, h11, h12, h13, h14, h15, h16,
        hrest.1]

/-- Witness for `send_reregister_overwrites`: on a provider whose table
already holds id 7 with tag 0, a second `send` of the unhandled method
"eth_foo" under id 7 succeeds and remaps "7" to tag 1 (`nextTag` of the
state used). -/
theorem send_reregister_overwrites_witness :
    (("eth_foo" : String) ∉ dispatchCases ∧ ("eth_foo" : String) ≠ "" ∧
      isArray (.vArr []) = true ∧ truthy (.vNum 7) = true ∧
      tableGet [("7", (⟨0⟩ : PendingEntry))] "7" = some ⟨0⟩) ∧
    (send { baseState with promises := [("7", ⟨0⟩)] } (.vStr "eth_foo")
        (.vArr []) (.vNum 7) =
      .ok (.promise 0,
           { baseState with promises := tableSet [("7", ⟨0⟩)] (jsToString (.vNum 7)) ⟨0⟩
                            nextTag := 1 },
           [.rpcCall 0
              (.vObj [("jsonrpc", .vStr "2.0"), ("id", .vNum 7),
                      ("method", .vStr "eth_foo"), ("params", .vArr [])])]) ∧
     tableGet (tableSet [("7", (⟨0⟩ : PendingEntry))] (jsToString (.vNum 7)) ⟨0⟩)
        (jsToString (.vNum 7)) = some ⟨0⟩) :=
  ⟨⟨by decide, by decide, rfl, by decide, rfl⟩,
   send_reregister_overwrites { baseState with promises := [("7", ⟨0⟩)] }
     "eth_foo" (.vArr []) (.vNum 7) ⟨0⟩ (by decide) (by decide) rfl (by decide) rfl⟩

/-! ### Claim C8 (amended) -/

/-- Claim C8 as amended: for every integer-valued `chainId`, the
network-version query resolves with the decimal string rendering of
`chainId` — including `"0"` for `chainId = 0`; the `|| null` fallback in the
source is unreachable because a number's decimal rendering is never the
empty string, so the query never resolves with null. -/
theorem net_version_decimal (st : ProviderState) (n : Int) (id : JSValue)
    (hc : st.chainId = .vNum n) (hid : truthy id = true) :
    send st (.vStr "net_version") (.vArr []) id =
      .ok (.promise st.nextTag,
           { st with nextTag := st.nextTag + 1
                     promises := eraseKey st.promises (jsToString id) },
           [.resolved st.nextTag
              (.vObj [("jsonrpc", .vStr "2.0"), ("id", id),
                      ("result", .vStr (intToBase 10 n))])]) := by
  have hne : intToBase 10 n ≠ "" := intToBase_ne_empty 10 n
  have hkey := tableGet_tableSet_self st.promises (jsToString id)
    (⟨st.nextTag⟩ : PendingEntry)
  have her := eraseKey_tableSet st.promises (jsToString id)
    (⟨st.nextTag⟩ : PendingEntry)
  have hv1 : truthy (.vStr "net_version") = true := rfl
  have hv2 : jsTypeof (.vStr "net_version") = "string" := rfl
  have hvs : truthy (.vStr (intToBase 10 n)) = true := by simp [truthy, hne]
  simp [send, strOf, hv1, hv2, hid, isArray, net_version, hc, jsNumToString,
        jsOr, hvs, _resolve, normalizeResult_vStr, hkey, her]

/-- Witness for `net_version_decimal`: `chainId = 56` resolves as "56". -/
theorem net_version_decimal_witness :
    (({ baseState with chainId := .vNum 56 } : ProviderState).chainId =
        .vNum 56 ∧ truthy (.vNum 5) = true) ∧
    send { baseState with chainId := .vNum 56 } (.vStr "net_version")
        (.vArr []) (.vNum 5) =
      .ok (.promise 0,
           { baseState with chainId := .vNum 56
                            nextTag := 1
                            promises := eraseKey baseState.promises (jsToString (.vNum 5)) },
           [.resolved 0
              (.vObj [("jsonrpc", .vStr "2.0"), ("id", .vNum 5),
                      ("result", .vStr (intToBase 10 56))])]) :=
  ⟨⟨rfl, by decide⟩,
   net_version_decimal { baseState with chainId := .vNum 56 } 56 (.vNum 5)
     rfl (by decide)⟩

/-! ### Claim C10 -/

/-- Claim C10: a falsy caller-supplied id (0, "", null, undefined, false) is
treated as absent — `Utils.genId()` supplies a fresh identifier, the pending
entry is registered under the generated identifier's key, and the resolved
envelope carries the generated identifier, not the caller's.  First conjunct:
a remote-passthrough method ("eth_foo") registers under the generated key and
the outgoing payload carries the generated id.  Second: the registered entry
is found under the generated key.  Third: a locally answered method
("eth_accounts") resolves with an envelope whose `id` is the generated one. -/
theorem send_falsy_id_generates (st : ProviderState) (params id : JSValue)
    (hid : truthy id = false) (hp : isArray params = true) :
    (send st (.vStr "eth_foo") params id =
      .ok (.promise st.nextTag,
           { st with nextId := st.nextId + 1
                     nextTag := st.nextTag + 1
                     promises := tableSet st.promises
                       (jsToString (genIdValue st.nextId)) ⟨st.nextTag⟩ },
           [.rpcCall st.rpc.gen
              (.vObj [("jsonrpc", .vStr "2.0"), ("id", genIdValue st.nextId),
                      ("method", .vStr "eth_foo"), ("params", params)])])) ∧
    tableGet (tableSet st.promises (jsToString (genIdValue st.nextId)) ⟨st.nextTag⟩)
        (jsToString (genIdValue st.nextId)) = some ⟨st.nextTag⟩ ∧
    (send st (.vStr "eth_accounts") params id =
      .ok (.promise st.nextTag,
           { st with nextId := st.nextId + 1
                     nextTag := st.nextTag + 1
                     promises := eraseKey st.promises
                       (jsToString (genIdValue st.nextId)) },
           [.resolved st.nextTag
              (.vObj [("jsonrpc", .vStr "2.0"), ("id", genIdValue st.nextId),
                      ("result", eth_accounts st)])])) := by
  have hkey := tableGet_tableSet_self st.promises
    (jsToString (genIdValue st.nextId)) (⟨st.nextTag⟩ : PendingEntry)
  have her := eraseKey_tableSet st.promises
    (jsToString (genIdValue st.nextId)) (⟨st.nextTag⟩ : PendingEntry)
  have hv1 : truthy (.vStr "eth_foo") = true := rfl
  have hv2 : jsTypeof (.vStr "eth_foo") = "string" := rfl
  have hw1 : truthy (.vStr "eth_accounts") = true := rfl
  have hw2 : jsTypeof (.vStr "eth_accounts") = "string" := rfl
  have hna : normalizeResult
        (if st.address = "" then JSValue.vArr [] else .vArr [.vStr st.address]) =
      .ok (if st.address = "" then JSValue.vArr [] else .vArr [.vStr st.address]) := by
    split <;> rfl
  refine ⟨?_, hkey, ?_⟩
  · simp [send, strOf, hv1, hv2, hid, hp]
  · simp [send, strOf, hw1, hw2, hid, hp, _resolve, hna, hkey, her, eth_accounts]

/-- Witness for `send_falsy_id_generates`: the falsy id 0 on `baseState`
(whose generator counter is 1) leads to registration and resolution under
the generated id 1. -/
theorem send_falsy_id_generates_witness :
    (truthy (.vNum 0) = false ∧ isArray (.vArr []) = true) ∧
    (send baseState (.vStr "eth_foo") (.vArr []) (.vNum 0) =
      .ok (.promise 0,
           { baseState with nextId := 2
                            nextTag := 1
                            promises := tableSet baseState.promises
                              (jsToString (genIdValue 1)) ⟨0⟩ },
           [.rpcCall 0
              (.vObj [("jsonrpc", .vStr "2.0"), ("id", genIdValue 1),
                      ("method", .vStr "eth_foo"), ("params", .vArr [])])]) ∧
     tableGet (tableSet baseState.promises (jsToString (genIdValue 1)) ⟨0⟩)
        (jsToString (genIdValue 1)) = some ⟨0⟩ ∧
     send baseState (.vStr "eth_accounts") (.vArr []) (.vNum 0) =
      .ok (.promise 0,
           { baseState with nextId := 2
                            nextTag := 1
                            promises := eraseKey baseState.promises
                              (jsToString (genIdValue 1)) },
           [.resolved 0
              (.vObj [("jsonrpc", .vStr "2.0"), ("id", genIdValue 1),
                      ("result", eth_accounts baseState)])])) :=
  ⟨⟨by decide, rfl⟩,
   send_falsy_id_generates baseState (.vArr []) (.vNum 0) (by decide) rfl⟩

/-! ### Claim C9 -/

/-- Claim C9: the claim says a batch (array) payload reaches the callback as
`(null, data)` on success and an error-typed value on failure.  The code's
batch branch is broken: `payload.map(this.send(payload.method,
payload.params, payload.id)).bind(this)` calls `send` ONCE with the array's
(undefined) `method` property — which makes `send` return an `Error` value —
and then passes that non-function to `Array.prototype.map`, which throws a
TypeError.  The callback is never invoked.  This theorem evaluates the code
at a well-formed single-element batch. -/
theorem sendAsync_batch_throws :
    sendAsync baseState
        (.vArr [.vObj [("method", .vStr "eth_chainId"),
                       ("params", .vArr []), ("id", .vNum 3)]]) =
      .error (.typeError "payload.map argument is not a function") :=
  rfl

end TrustWeb3
